import Mathlib

/-!
Verification of the MCP hello-world server (`src/main.py`).

The file shallowly embeds the core of the server: the capability registry
(`_list_resources`, `_list_resource_templates`, `_list_tools`), the resource
resolver (`_handle_read_resource`) and the tool dispatcher
(`_call_tool_request`).  The widget script body (`WIDGET_BUNDLE` in the
source) is fetched from the environment at startup and is opaque to the
core, so every definition that depends on it takes it as a `bundle`
parameter.  Python dict literals with fixed keys are embedded as Lean
structures; the untrusted `arguments` mapping is an association list from
keys to JSON scalar values.
-/

namespace HelloWorldMCP

/-- JSON-compatible scalar values carried by the MCP `arguments` mapping
(Python values reaching `request.params.arguments`). -/
inductive Json where
  | str (s : String)
  | int (n : Int)
  | bool (b : Bool)
  | null
  deriving DecidableEq

/-- Python `str()` / f-string interpolation of a scalar value, as used by
`f"Hello, {name}!"` in `_call_tool_request`. -/
def pyStr : Json → String
  | .str s => s
  | .int n => toString n
  | .bool true => "True"
  | .bool false => "False"
  | .null => "None"

/-- The `arguments` dict of a `CallToolRequest`: keys are unique in a Python
dict, so first-match lookup over an association list is faithful. -/
def ArgMap : Type := List (String × Json)

/-- Python `dict.get key` returning `None` when absent. -/
def lookupArg : List (String × Json) → String → Option Json
  | [], _ => none
  | (k, v) :: rest, key => if k = key then some v else lookupArg rest key

/-- Python `dict.get(key, default)`. -/
def getArgD (args : List (String × Json)) (key : String) (d : Json) : Json :=
  (lookupArg args key).getD d

/-- The string `sub` occurs contiguously inside `s`. -/
def strHasSubstr (s sub : String) : Prop :=
  ∃ pre post, s = pre ++ sub ++ post

/-- The value of `WIDGET_URI` in `src/main.py`. -/
def WIDGET_URI : String := "ui://widget/widget.html"

/-- The value of `MIME_TYPE` in `src/main.py`. -/
def MIME_TYPE : String := "text/html+skybridge"

/-- The `WIDGET_HTML` f-string of `src/main.py`, as a function of the
startup `WIDGET_BUNDLE`.  The source template is
`'''\n<div id="root"></div>\n<script>\n{WIDGET_BUNDLE}\n</script>\n'''.strip()`;
since the text around the interpolation starts and ends with non-whitespace,
`.strip()` removes exactly the outer two newlines, for every bundle. -/
def WIDGET_HTML (bundle : String) : String :=
  "<div id=\"root\"></div>\n<script>\n" ++ bundle ++ "\n</script>"

/-- `types.Resource` as populated by `_list_resources`. -/
structure Resource where
  uri : String
  name : String
  title : String
  description : String
  mimeType : String
  deriving DecidableEq

/-- `types.ResourceTemplate` as populated by `_list_resource_templates`. -/
structure ResourceTemplate where
  uriTemplate : String
  name : String
  title : String
  description : String
  mimeType : String
  deriving DecidableEq

/-- One property entry of the `say_hello` input schema. -/
structure PropertySchema where
  type : String
  description : String
  deriving DecidableEq

/-- The JSON-Schema `inputSchema` dict of a tool descriptor. -/
structure InputSchema where
  type : String
  properties : List (String × PropertySchema)
  required : List String
  additionalProperties : Bool
  deriving DecidableEq

/-- The block of behaviour hints inside the tool `_meta` (source key
`"annotations"`). -/
structure ToolHints where
  destructiveHint : Bool
  openWorldHint : Bool
  readOnlyHint : Bool
  deriving DecidableEq

/-- The `_meta` dict of a tool descriptor. -/
structure ToolMeta where
  outputTemplate : String
  invoking : String
  invoked : String
  widgetAccessible : Bool
  resultCanProduceWidget : Bool
  hints : ToolHints
  deriving DecidableEq

/-- `types.Tool` as populated by `_list_tools`. -/
structure Tool where
  name : String
  title : String
  description : String
  inputSchema : InputSchema
  meta : ToolMeta
  deriving DecidableEq

/-- The `openai/widgetCSP` dict of the resource `_meta`. -/
structure WidgetCSP where
  connect_domains : List String
  resource_domains : List String
  deriving DecidableEq

/-- The `_meta` rendering hints attached to the widget resource contents. -/
structure ResourceMeta where
  widgetPrefersBorder : Bool
  widgetDomain : String
  widgetCSP : WidgetCSP
  widgetDescription : String
  deriving DecidableEq

/-- `types.TextResourceContents` as built by `_handle_read_resource`. -/
structure TextResourceContents where
  uri : String
  mimeType : String
  text : String
  meta : ResourceMeta
  deriving DecidableEq

/-- `types.ReadResourceResult`. -/
structure ReadResourceResult where
  contents : List TextResourceContents
  deriving DecidableEq

/-- `types.TextContent` (`type` is always the literal `"text"`). -/
structure TextContent where
  type : String
  text : String
  deriving DecidableEq

/-- The `structuredContent` dict of the `say_hello` result:
`{"greeting": data["greeting"], "message": data["message"]}`.  `greeting` is
always a string; `message` is the raw argument value. -/
structure StructuredContent where
  greeting : String
  message : Json
  deriving DecidableEq

/-- The `data` dict built by the `say_hello` handler (the `fullData` object
placed under `_meta`); `metadata` is inlined as its two fixed keys. -/
structure FullData where
  greeting : String
  message : Json
  timestamp : String
  app : String
  version : String
  deriving DecidableEq

/-- `types.CallToolResult`: `content`, `structuredContent`, and the `_meta`
dict whose single key `"fullData"` holds the full dataset. -/
structure CallToolResult where
  content : List TextContent
  structuredContent : StructuredContent
  fullData : FullData
  deriving DecidableEq

/-- `_list_resources` of `src/main.py` (a zero-argument handler; the `Unit`
argument marks one invocation). -/
def list_resources (_ : Unit) : List Resource :=
  [{ uri := WIDGET_URI
     name := "Hello World Widget"
     title := "Hello World Widget"
     description := "Interactive hello world widget UI"
     mimeType := MIME_TYPE }]

/-- `_list_resource_templates` of `src/main.py`. -/
def list_resource_templates (_ : Unit) : List ResourceTemplate :=
  [{ uriTemplate := WIDGET_URI
     name := "Hello World Widget"
     title := "Hello World Widget"
     description := "Interactive hello world widget UI template"
     mimeType := MIME_TYPE }]

/-- `_list_tools` of `src/main.py`. -/
def list_tools (_ : Unit) : List Tool :=
  [{ name := "say_hello"
     title := "Say Hello"
     description := "Generates a personalized hello world greeting with optional custom message"
     inputSchema :=
       { type := "object"
         properties :=
           [("name", { type := "string"
                       description := "Name of the person to greet (defaults to 'World')" }),
            ("message", { type := "string"
                          description := "Optional custom message to display" })]
         required := []
         additionalProperties := false }
     meta :=
       { outputTemplate := WIDGET_URI
         invoking := "Generating hello world greeting..."
         invoked := "Greeting generated successfully"
         widgetAccessible := true
         resultCanProduceWidget := true
         hints :=
           { destructiveHint := false
             openWorldHint := false
             readOnlyHint := true } } }]

/-- `_handle_read_resource` of `src/main.py`.  `bundle` is the startup
`WIDGET_BUNDLE`; `uri` is `str(request.params.uri)`.  The Python handler
raises `ValueError` on an unknown uri, embedded as `Except.error` carrying
the exception message. -/
def handle_read_resource (bundle : String) (uri : String) :
    Except String ReadResourceResult :=
  if uri ≠ WIDGET_URI then
    .error ("Unknown resource URI: " ++ uri)
  else
    .ok { contents :=
            [{ uri := WIDGET_URI
               mimeType := MIME_TYPE
               text := WIDGET_HTML bundle
               meta :=
                 { widgetPrefersBorder := true
                   widgetDomain := "https://chatgpt.com"
                   widgetCSP :=
                     { connect_domains := ["https://chatgpt.com"]
                       resource_domains := ["https://persistent.oaistatic.com"] }
                   widgetDescription := "Interactive hello world display" } }] }

/-- `_call_tool_request` of `src/main.py`.  `arguments` is
`request.params.arguments`, which may be `None`; the source replaces a falsy
value by `{}` (`arguments = request.params.arguments or {}`, and an empty
dict maps to itself).  The Python handler raises `ValueError` on an unknown
tool, embedded as `Except.error` carrying the exception message. -/
def call_tool_request (tool_name : String)
    (arguments : Option (List (String × Json))) :
    Except String CallToolResult :=
  let args := arguments.getD []
  if tool_name = "say_hello" then
    let name := getArgD args "name" (.str "World")
    let message := getArgD args "message" (.str "Welcome to the Hello World app!")
    let data : FullData :=
      { greeting := "Hello, " ++ pyStr name ++ "!"
        message := message
        timestamp := "2024-01-01T00:00:00Z"
        app := "Hello World MCP"
        version := "1.0.0" }
    .ok { content := [{ type := "text"
                        text := "Hello, " ++ pyStr name ++ "! " ++ pyStr message }]
          structuredContent := { greeting := data.greeting, message := data.message }
          fullData := data }
  else
    .error ("Unknown tool: " ++ tool_name)

/-- The result `_call_tool_request` builds for `say_hello` when both the
`name` and the `message` defaults are substituted. -/
def fullDefaultResult : CallToolResult :=
  { content := [{ type := "text"
                  text := "Hello, World! Welcome to the Hello World app!" }]
    structuredContent := { greeting := "Hello, World!"
                           message := Json.str "Welcome to the Hello World app!" }
    fullData := { greeting := "Hello, World!"
                  message := Json.str "Welcome to the Hello World app!"
                  timestamp := "2024-01-01T00:00:00Z"
                  app := "Hello World MCP"
                  version := "1.0.0" } }

/-- Spec-side reading of an optional string field: the string stored under
`key` when present, the default `d` when absent, and undefined when the
stored value is not a string. -/
def strFieldD (args : List (String × Json)) (key d : String) : Option String :=
  match lookupArg args key with
  | none => some d
  | some (.str s) => some s
  | some _ => none

theorem getArgD_of_strFieldD (args : List (String × Json)) (key d s : String)
    (h : strFieldD args key d = some s) :
    getArgD args key (.str d) = .str s := by
  unfold strFieldD at h
  unfold getArgD
  cases hl : lookupArg args key with
  | none =>
    rw [hl] at h
    cases h
    rfl
  | some v =>
    rw [hl] at h
    cases v with
    | str t => cases h; rfl
    | int n => cases h
    | bool b => cases h
    | null => cases h

theorem string_append_exclaim (s t : String) :
    s ++ "!" ++ " " ++ t = s ++ "! " ++ t := by
  have h : ("!" ++ " " : String) = "! " := rfl
  rw [String.append_assoc s "!" " ", h]

/-- C1: for every arguments mapping whose `name` and `message` values, when
present, are strings, `say_hello` produces textSummary
`"Hello, " ++ n ++ "! " ++ m` and structuredContent
`{greeting := "Hello, " ++ n ++ "!", message := m}`, with `n` defaulting to
`"World"` and `m` defaulting to the fixed welcome string, each default
substituted independently. -/
theorem C1_default_substitution (args : List (String × Json)) (n m : String)
    (hn : strFieldD args "name" "World" = some n)
    (hm : strFieldD args "message" "Welcome to the Hello World app!" = some m) :
    ∃ r, call_tool_request "say_hello" (some args) = Except.ok r ∧
      r.content = [{ type := "text", text := "Hello, " ++ n ++ "! " ++ m }] ∧
      r.structuredContent.greeting = "Hello, " ++ n ++ "!" ∧
      r.structuredContent.message = Json.str m := by
  have hn' := getArgD_of_strFieldD args "name" "World" n hn
  have hm' := getArgD_of_strFieldD args "message" "Welcome to the Hello World app!" m hm
  refine ⟨_, rfl, ?_, ?_, ?_⟩ <;>
    simp [call_tool_request, hn', hm', pyStr]

/-- C1 witness: the `{name: "Ada"}` invocation, where `message` falls back to
its default independently of the supplied `name`. -/
theorem C1_default_substitution_witness :
    strFieldD [("name", Json.str "Ada")] "name" "World" = some "Ada" ∧
    strFieldD [("name", Json.str "Ada")] "message" "Welcome to the Hello World app!" =
      some "Welcome to the Hello World app!" ∧
    ∃ r, call_tool_request "say_hello" (some [("name", Json.str "Ada")]) = Except.ok r ∧
      r.content = [{ type := "text",
                     text := "Hello, " ++ "Ada" ++ "! " ++ "Welcome to the Hello World app!" }] ∧
      r.structuredContent.greeting = "Hello, " ++ "Ada" ++ "!" ∧
      r.structuredContent.message = Json.str "Welcome to the Hello World app!" :=
  ⟨rfl, rfl,
   C1_default_substitution [("name", Json.str "Ada")] "Ada"
     "Welcome to the Hello World app!" rfl rfl⟩

/-- C2 (code bug witness): the `say_hello` schema advertised by `_list_tools`
declares `additionalProperties := false` with only `name` and `message` as
properties, yet `_call_tool_request` performs no schema validation: invoked
with the undeclared property `{extra: 1}` it does not fail with
InvalidArguments but succeeds, returning the full-default ToolResult. -/
theorem C2_extra_property_not_rejected :
    (∃ t, list_tools () = [t] ∧ t.name = "say_hello" ∧
       t.inputSchema.additionalProperties = false ∧
       t.inputSchema.properties.map Prod.fst = ["name", "message"]) ∧
    call_tool_request "say_hello" (some [("extra", Json.int 1)]) =
      Except.ok fullDefaultResult :=
  ⟨⟨_, rfl, rfl, rfl, rfl⟩, rfl⟩

/-- C3 (code bug witness): the timestamp placed in the `_meta` fullData is
the string constant `"2024-01-01T00:00:00Z"` baked into the handler, for
every arguments value — the handler consults no current-time source, so two
invocations at different times carry identical timestamps. -/
theorem C3_timestamp_baked_in :
    ∀ arguments : Option (List (String × Json)),
      Except.map (fun r => r.fullData.timestamp)
          (call_tool_request "say_hello" arguments) =
        Except.ok "2024-01-01T00:00:00Z" := by
  intro arguments
  rfl

/-- C4: invoking any tool name other than `say_hello` fails with an error
whose message contains that tool name, and no ToolResult is produced. -/
theorem C4_unknown_tool (tool_name : String)
    (arguments : Option (List (String × Json)))
    (h : tool_name ≠ "say_hello") :
    ∃ msg, call_tool_request tool_name arguments = Except.error msg ∧
      strHasSubstr msg tool_name := by
  refine ⟨"Unknown tool: " ++ tool_name, ?_, "Unknown tool: ", "", ?_⟩
  · simp [call_tool_request, h]
  · rw [String.append_empty]

/-- C4 witness: `invoke("nonexistent", {})` fails naming `"nonexistent"`. -/
theorem C4_unknown_tool_witness :
    ("nonexistent" : String) ≠ "say_hello" ∧
    ∃ msg, call_tool_request "nonexistent" (some []) = Except.error msg ∧
      strHasSubstr msg "nonexistent" :=
  ⟨by decide, C4_unknown_tool "nonexistent" (some []) (by decide)⟩

/-- C5: reading any uri other than `"ui://widget/widget.html"` fails with an
error whose message contains the offending uri, and no resource content is
returned. -/
theorem C5_unknown_resource (bundle uri : String) (h : uri ≠ WIDGET_URI) :
    ∃ msg, handle_read_resource bundle uri = Except.error msg ∧
      strHasSubstr msg uri := by
  refine ⟨"Unknown resource URI: " ++ uri, ?_, "Unknown resource URI: ", "", ?_⟩
  · unfold handle_read_resource
    rw [if_pos h]
  · rw [String.append_empty]

/-- C5 witness: `readResource("ui://widget/missing.html")` fails naming that
uri. -/
theorem C5_unknown_resource_witness :
    ("ui://widget/missing.html" : String) ≠ WIDGET_URI ∧
    ∃ msg, handle_read_resource "" "ui://widget/missing.html" = Except.error msg ∧
      strHasSubstr msg "ui://widget/missing.html" :=
  ⟨by decide, C5_unknown_resource "" "ui://widget/missing.html" (by decide)⟩

/-- C6: for every configured script body, reading `"ui://widget/widget.html"`
succeeds with a single content whose uri is the requested uri, whose
mimeType equals the mimeType of the descriptor `_list_resources` returns for
that uri, and whose text contains the script body as a substring. -/
theorem C6_read_widget (bundle : String) :
    ∃ res c, handle_read_resource bundle WIDGET_URI = Except.ok res ∧
      res.contents = [c] ∧
      c.uri = WIDGET_URI ∧
      (∃ d, d ∈ list_resources () ∧ d.uri = WIDGET_URI ∧ c.mimeType = d.mimeType) ∧
      strHasSubstr c.text bundle := by
  refine ⟨_, _, rfl, rfl, rfl, ⟨_, List.Mem.head _, rfl, rfl⟩,
    "<div id=\"root\"></div>\n<script>\n", "\n</script>", rfl⟩

/-- C7: for every successful `say_hello` invocation, the fullData under
`_meta` agrees with structuredContent on `greeting` and `message`, and the
textSummary is composed of those same greeting and message values. -/
theorem C7_no_divergence (arguments : Option (List (String × Json)))
    (r : CallToolResult)
    (h : call_tool_request "say_hello" arguments = Except.ok r) :
    r.fullData.greeting = r.structuredContent.greeting ∧
    r.fullData.message = r.structuredContent.message ∧
    r.content = [{ type := "text",
                   text := r.structuredContent.greeting ++ " " ++
                     pyStr r.structuredContent.message }] := by
  have h2 := Except.ok.inj h
  rw [← h2]
  refine ⟨rfl, rfl, ?_⟩
  rw [string_append_exclaim]

/-- C7 witness: the full-default invocation. -/
theorem C7_no_divergence_witness :
    call_tool_request "say_hello" none = Except.ok fullDefaultResult ∧
    (fullDefaultResult.fullData.greeting = fullDefaultResult.structuredContent.greeting ∧
     fullDefaultResult.fullData.message = fullDefaultResult.structuredContent.message ∧
     fullDefaultResult.content =
       [{ type := "text"
          text := fullDefaultResult.structuredContent.greeting ++ " " ++
            pyStr fullDefaultResult.structuredContent.message }]) :=
  ⟨rfl, C7_no_divergence none fullDefaultResult rfl⟩

/-- C8: the three discovery handlers are pure functions of the frozen
registry, so any two invocations return identical sequences (same
descriptors, same content, same order). -/
theorem C8_discovery_idempotent (u v : Unit) :
    list_resources u = list_resources v ∧
    list_resource_templates u = list_resource_templates v ∧
    list_tools u = list_tools v :=
  ⟨rfl, rfl, rfl⟩

/-- C9: tool dispatch is fully deterministic — two calls with the same tool
name and arguments give identical complete results, and the fullData
timestamp of every successful result is the constant
`"2024-01-01T00:00:00Z"`. -/
theorem C9_deterministic (tool_name : String)
    (arguments : Option (List (String × Json))) :
    call_tool_request tool_name arguments = call_tool_request tool_name arguments ∧
    Except.map (fun r => r.fullData.timestamp) (call_tool_request tool_name arguments) =
      Except.map (fun _ => "2024-01-01T00:00:00Z") (call_tool_request tool_name arguments) := by
  refine ⟨rfl, ?_⟩
  by_cases h : tool_name = "say_hello" <;>
    simp [call_tool_request, h, Except.map]

/-- C10: invoking `say_hello` with absent (`None`) arguments behaves exactly
as invoking it with the empty mapping, producing the full-default result
with textSummary `"Hello, World! Welcome to the Hello World app!"`. -/
theorem C10_none_arguments :
    call_tool_request "say_hello" none = call_tool_request "say_hello" (some []) ∧
    call_tool_request "say_hello" none = Except.ok fullDefaultResult ∧
    fullDefaultResult.content =
      [{ type := "text"
         text := "Hello, World! Welcome to the Hello World app!" }] :=
  ⟨rfl, rfl, rfl⟩

end HelloWorldMCP
